import Mathlib

/-!
# NRF24L01+ driver (`nrf24_lib.c`): register access, mode control, payload transfer

The driver functions of `src/nrf24_lib.c` are embedded as pure functions on a
`World`: the simulated transceiver (a register file behind the SPI framing of
the chip-select pin), the two GPIO pin levels, and the chronological trace of
every call the driver makes to the host (GPIO, SPI, delay).

`uint8_t` values are natural numbers; wherever the C code stores the result of
an `int` expression into a `uint8_t` the embedding reduces modulo `256`, and
the `int` complement `~x` is the 32-bit two's complement `0xFFFFFFFF - x`.
-/

namespace Nrf24Lib

/-! ## Constants of `nrf24_lib.h` -/

def NRF24_REG_CONFIG : Nat := 0x00
def NRF24_REG_SETUP_AW : Nat := 0x03
def NRF24_REG_RF_CH : Nat := 0x05
def NRF24_REG_RF_SETUP : Nat := 0x06
def NRF24_REG_STATUS : Nat := 0x07
def NRF24_REG_RPD : Nat := 0x09

def NRF24_CMD_READ_REG : Nat := 0x00
def NRF24_CMD_WRITE_REG : Nat := 0x20
def NRF24_CMD_FLUSH_RX : Nat := 0xE2
def NRF24_CMD_W_TX_PAYLOAD : Nat := 0xA0
def NRF24_CMD_W_TX_PAYLOAD_NOACK : Nat := 0xB0

/-- The two pins the driver drives: `NRF24_CS_PIN` (chip-select, active low)
and `NRF24_CE_PIN` (chip-enable). -/
inductive Pin where
  | cs
  | ce
  deriving DecidableEq, Repr

/-- Calls the driver makes to the host, in the order they are made. -/
inductive Event where
  | gpioInitSimple (p : Pin)
  | gpioInit (p : Pin)
  | gpioWrite (p : Pin) (level : Bool)
  | busHandleInit
  | busHandleDeinit
  | spiAcquire
  | spiRelease
  | spiTx (bytes : List Nat) (timeout : Nat)
  | spiTrx (bytes : List Nat) (timeout : Nat)
  | delayUs (n : Nat)
  | delayMs (n : Nat)
  deriving DecidableEq, Repr

/-- The module status structure `NRF24` of `nrf24_lib.h`. -/
structure NRF24 where
  initialized : Bool
  last_status : Nat
  deriving DecidableEq, Repr

/-- The simulated hardware: register file of the chip, the command byte
latched since chip-select was asserted, the levels of the two pins, and the
trace of host calls. -/
structure World where
  regs : Nat → Nat
  cmd : Option Nat
  cs : Bool
  ce : Bool
  trace : List Event

/-! ## Simulated chip and host primitives -/

/-- Modelled from the spec: the simulated register file behind the SPI bus (the
chip is not part of the repository). While chip-select is low the first byte
of a frame is latched as the command and STATUS is shifted out; after a
command `0x20|a` every further byte is stored in register `a`, after a command
`0x00|a` register `a` is shifted out, any other command leaves the register
file alone. With chip-select high the chip ignores the bus. -/
def chipByte (w : World) (b : Nat) : World × Nat :=
  if w.cs then (w, 0)
  else
    match w.cmd with
    | none => ({ w with cmd := some b }, w.regs NRF24_REG_STATUS)
    | some c =>
      if c &&& 0xE0 = NRF24_CMD_WRITE_REG then
        ({ w with regs := Function.update w.regs (c &&& 0x1F) b }, 0)
      else if c &&& 0xE0 = NRF24_CMD_READ_REG then
        (w, w.regs (c &&& 0x1F))
      else (w, 0)

/-- Modelled from the spec: a full-duplex exchange of a byte sequence with the
simulated chip, returning the bytes shifted out by the chip. -/
def chipXfer (w : World) : List Nat → World × List Nat
  | [] => (w, [])
  | b :: bs =>
    let r := chipByte w b
    let rs := chipXfer r.1 bs
    (rs.1, r.2 :: rs.2)

/-- Append a host call to the trace. -/
def emit (w : World) (e : Event) : World :=
  { w with trace := w.trace ++ [e] }

/-- Modelled from the spec: `furi_hal_gpio_write` of the host GPIO
collaborator. An edge on chip-select starts or ends a frame, so the latched
command is dropped. -/
def furi_hal_gpio_write (p : Pin) (level : Bool) (w : World) : World :=
  match p with
  | Pin.cs => emit { w with cs := level, cmd := none } (Event.gpioWrite Pin.cs level)
  | Pin.ce => emit { w with ce := level } (Event.gpioWrite Pin.ce level)

/-- Modelled from the spec: `furi_hal_gpio_init_simple` (pin mode only). -/
def furi_hal_gpio_init_simple (p : Pin) (w : World) : World :=
  emit w (Event.gpioInitSimple p)

/-- Modelled from the spec: `furi_hal_gpio_init` (pin mode, pull, speed). -/
def furi_hal_gpio_init (p : Pin) (w : World) : World :=
  emit w (Event.gpioInit p)

/-- Modelled from the spec: `furi_hal_spi_bus_handle_init`. -/
def furi_hal_spi_bus_handle_init (w : World) : World :=
  emit w Event.busHandleInit

/-- Modelled from the spec: `furi_hal_spi_bus_handle_deinit`. -/
def furi_hal_spi_bus_handle_deinit (w : World) : World :=
  emit w Event.busHandleDeinit

/-- Modelled from the spec: `furi_hal_spi_acquire`. -/
def furi_hal_spi_acquire (w : World) : World :=
  emit w Event.spiAcquire

/-- Modelled from the spec: `furi_hal_spi_release`. -/
def furi_hal_spi_release (w : World) : World :=
  emit w Event.spiRelease

/-- Modelled from the spec: `furi_hal_spi_bus_tx`, the transmit-only transfer
of the first `size` bytes of `buffer`. -/
def furi_hal_spi_bus_tx (buffer : List Nat) (size timeout : Nat) (w : World) : World :=
  emit (chipXfer w (buffer.take size)).1 (Event.spiTx (buffer.take size) timeout)

/-- Modelled from the spec: `furi_hal_spi_bus_trx`, the full-duplex transfer of
the first `size` bytes of `tx_buffer`; the received bytes are returned. -/
def furi_hal_spi_bus_trx (tx_buffer : List Nat) (size timeout : Nat) (w : World) :
    List Nat × World :=
  let r := chipXfer w (tx_buffer.take size)
  (r.2, emit r.1 (Event.spiTrx (tx_buffer.take size) timeout))

/-- Modelled from the spec: `furi_delay_us`. -/
def furi_delay_us (n : Nat) (w : World) : World :=
  emit w (Event.delayUs n)

/-- Modelled from the spec: `furi_delay_ms`. -/
def furi_delay_ms (n : Nat) (w : World) : World :=
  emit w (Event.delayMs n)

/-! ## The driver, `src/nrf24_lib.c` -/

/-- The `int` complement `~x` of C, as a 32-bit two's complement pattern. -/
def cNot (x : Nat) : Nat := 0xFFFFFFFF - x

def nrf24_spi_acquire (w : World) : World := furi_hal_spi_acquire w

def nrf24_spi_release (w : World) : World := furi_hal_spi_release w

def nrf24_read_register (reg : Nat) (w : World) : Nat × World :=
  let tx_data : List Nat := [(NRF24_CMD_READ_REG ||| reg) % 256, 0]
  let w1 := furi_hal_gpio_write Pin.cs false w
  let r := furi_hal_spi_bus_trx tx_data 2 100 w1
  let w3 := furi_hal_gpio_write Pin.cs true r.2
  (r.1.getD 1 0, w3)

def nrf24_write_register (reg value : Nat) (w : World) : World :=
  let tx_data : List Nat := [(NRF24_CMD_WRITE_REG ||| reg) % 256, value]
  let w1 := furi_hal_gpio_write Pin.cs false w
  let w2 := furi_hal_spi_bus_tx tx_data 2 100 w1
  furi_hal_gpio_write Pin.cs true w2

def nrf24_set_idle (w : World) : World :=
  let r := nrf24_read_register NRF24_REG_CONFIG w
  let config := (r.1 &&& cNot (1 <<< 1)) % 256
  let w2 := nrf24_write_register NRF24_REG_CONFIG config r.2
  furi_hal_gpio_write Pin.ce false w2

def nrf24_check_connection (w : World) : Bool × World :=
  let r := nrf24_read_register NRF24_REG_SETUP_AW w
  (r.1 == 0x03, r.2)

def nrf24_init (nrf24 : Option NRF24) (w : World) : Bool × Option NRF24 × World :=
  match nrf24 with
  | none => (false, none, w)
  | some h =>
    let w1 := furi_hal_gpio_init_simple Pin.cs w
    let w2 := furi_hal_gpio_write Pin.cs true w1
    let w3 := furi_hal_gpio_init Pin.ce w2
    let w4 := furi_hal_gpio_write Pin.ce false w3
    let w5 := furi_hal_spi_bus_handle_init w4
    let w6 := nrf24_spi_acquire w5
    let c := nrf24_check_connection w6
    let w8 := nrf24_spi_release c.2
    if c.1 then
      (c.1, some { h with initialized := true, last_status := 0 }, w8)
    else
      (c.1, some { h with initialized := false }, w8)

def nrf24_deinit (nrf24 : Option NRF24) (w : World) : Option NRF24 × World :=
  match nrf24 with
  | none => (none, w)
  | some h =>
    let w1 := nrf24_spi_acquire w
    let w2 := nrf24_set_idle w1
    let w3 := nrf24_spi_release w2
    let w4 := furi_hal_spi_bus_handle_deinit w3
    (some { h with initialized := false }, w4)

def nrf24_set_channel (channel : Nat) (w : World) : World :=
  if channel > 125 then w
  else nrf24_write_register NRF24_REG_RF_CH channel w

def nrf24_write_payload (data : List Nat) (length : Nat) (w : World) : World :=
  if length > 32 then w
  else
    let cmd := NRF24_CMD_W_TX_PAYLOAD
    let w1 := furi_hal_gpio_write Pin.cs false w
    let w2 := furi_hal_spi_bus_tx [cmd] 1 100 w1
    let w3 := furi_hal_spi_bus_tx data length 100 w2
    let w4 := furi_hal_gpio_write Pin.cs true w3
    let w5 := furi_hal_gpio_write Pin.ce true w4
    let w6 := furi_delay_us 15 w5
    furi_hal_gpio_write Pin.ce false w6

def nrf24_write_payload_noack (data : List Nat) (length : Nat) (w : World) : World :=
  if length > 32 then w
  else
    let cmd := NRF24_CMD_W_TX_PAYLOAD_NOACK
    let w1 := furi_hal_gpio_write Pin.cs false w
    let w2 := furi_hal_spi_bus_tx [cmd] 1 100 w1
    let w3 := furi_hal_spi_bus_tx data length 100 w2
    let w4 := furi_hal_gpio_write Pin.cs true w3
    let w5 := furi_hal_gpio_write Pin.ce true w4
    let w6 := furi_delay_us 15 w5
    furi_hal_gpio_write Pin.ce false w6

def nrf24_set_tx_mode (w : World) : World :=
  let r := nrf24_read_register NRF24_REG_CONFIG w
  let config := (r.1 &&& cNot (1 <<< 0)) % 256
  let config := (config ||| (1 <<< 1)) % 256
  let w2 := nrf24_write_register NRF24_REG_CONFIG config r.2
  furi_delay_ms 2 w2

def nrf24_set_rx_mode (w : World) : World :=
  let r := nrf24_read_register NRF24_REG_CONFIG w
  let config := (r.1 ||| (1 <<< 0)) % 256
  let config := (config ||| (1 <<< 1)) % 256
  let w2 := nrf24_write_register NRF24_REG_CONFIG config r.2
  let w3 := furi_delay_ms 2 w2
  furi_hal_gpio_write Pin.ce true w3

def nrf24_flush_rx (w : World) : World :=
  let cmd := NRF24_CMD_FLUSH_RX
  let w1 := furi_hal_gpio_write Pin.cs false w
  let w2 := furi_hal_spi_bus_tx [cmd] 1 100 w1
  furi_hal_gpio_write Pin.cs true w2

def nrf24_set_power (power : Nat) (w : World) : World :=
  let power := if power > 3 then 3 else power
  let r := nrf24_read_register NRF24_REG_RF_SETUP w
  let rf_setup := (r.1 &&& cNot 0x06) % 256
  let rf_setup := (rf_setup ||| (power <<< 1)) % 256
  nrf24_write_register NRF24_REG_RF_SETUP rf_setup r.2

/-! ## The CONFIG bytes written by the mode functions -/

/-- CONFIG value written by `nrf24_set_idle` when it has read `c`. -/
def idleConfig (c : Nat) : Nat := (c &&& cNot (1 <<< 1)) % 256

/-- CONFIG value written by `nrf24_set_tx_mode` when it has read `c`. -/
def txConfig (c : Nat) : Nat := ((c &&& cNot (1 <<< 0)) % 256 ||| (1 <<< 1)) % 256

/-- CONFIG value written by `nrf24_set_rx_mode` when it has read `c`. -/
def rxConfig (c : Nat) : Nat := ((c ||| (1 <<< 0)) % 256 ||| (1 <<< 1)) % 256

/-! ## Example hardware states -/

/-- An example register file: the reset values of the first registers of the
chip (CONFIG `0x08`, SETUP_AW `0x03`, RF_CH `0x02`, RF_SETUP `0x0E`, STATUS
`0x0E`), zero elsewhere. -/
def resetRegs (a : Nat) : Nat :=
  if a = 0x00 then 0x08
  else if a = 0x01 then 0x3F
  else if a = 0x02 then 0x03
  else if a = 0x03 then 0x03
  else if a = 0x04 then 0x03
  else if a = 0x05 then 0x02
  else if a = 0x06 then 0x0E
  else if a = 0x07 then 0x0E
  else 0

/-- A world with the given register file, both pins idle, nothing traced. -/
def simWorld (regs : Nat → Nat) : World :=
  { regs := regs, cmd := none, cs := true, ce := false, trace := [] }

/-- A freshly created, uninitialized handle. -/
def freshHandle : NRF24 :=
  { initialized := false, last_status := 0 }

/-! ## Basic facts about the register access primitive -/

theorem cmd_read_ne_write : NRF24_CMD_READ_REG ≠ NRF24_CMD_WRITE_REG := by
  decide

theorem read_cmd_bits : ∀ a < 32,
    ((NRF24_CMD_READ_REG ||| a) % 256) &&& 0xE0 = NRF24_CMD_READ_REG ∧
    ((NRF24_CMD_READ_REG ||| a) % 256) &&& 0xE0 ≠ NRF24_CMD_WRITE_REG ∧
    ((NRF24_CMD_READ_REG ||| a) % 256) &&& 0x1F = a := by
  decide

theorem write_cmd_bits : ∀ a < 32,
    ((NRF24_CMD_WRITE_REG ||| a) % 256) &&& 0xE0 = NRF24_CMD_WRITE_REG ∧
    ((NRF24_CMD_WRITE_REG ||| a) % 256) &&& 0x1F = a := by
  decide

/-- Reading a register of the 5-bit space returns its content and leaves the
chip as it was, chip-select released. -/
theorem read_register_eq (a : Nat) (ha : a < 32) (w : World) :
    nrf24_read_register a w =
      (w.regs a,
        { w with
          cmd := none, cs := true,
          trace := w.trace ++ [Event.gpioWrite Pin.cs false,
            Event.spiTrx [(NRF24_CMD_READ_REG ||| a) % 256, 0] 100,
            Event.gpioWrite Pin.cs true] }) := by
  obtain ⟨h1, h2, h3⟩ := read_cmd_bits a ha
  simp [nrf24_read_register, furi_hal_gpio_write, furi_hal_spi_bus_trx, chipXfer, chipByte,
    emit, h1, h2, h3, cmd_read_ne_write]

/-- Writing a register of the 5-bit space stores the value and nothing else. -/
theorem write_register_eq (a v : Nat) (ha : a < 32) (w : World) :
    nrf24_write_register a v w =
      { w with
        regs := Function.update w.regs a v,
        cmd := none, cs := true,
        trace := w.trace ++ [Event.gpioWrite Pin.cs false,
          Event.spiTx [(NRF24_CMD_WRITE_REG ||| a) % 256, v] 100,
          Event.gpioWrite Pin.cs true] } := by
  obtain ⟨h1, h3⟩ := write_cmd_bits a ha
  simp [nrf24_write_register, furi_hal_gpio_write, furi_hal_spi_bus_tx, chipXfer, chipByte,
    emit, h1, h3]

/-! ## Register round trip -/

/-- C1: for every register address `addr` of the 5-bit space and every byte
`v`, writing `v` to `addr` and then reading `addr` back returns `v`. -/
theorem write_read_roundtrip (addr v : Nat) (w : World) (haddr : addr < 32) (_hv : v < 256) :
    (nrf24_read_register addr (nrf24_write_register addr v w)).1 = v := by
  rw [read_register_eq addr haddr, write_register_eq addr v haddr]
  simp

theorem write_read_roundtrip_witness :
    (0x1F : Nat) < 32 ∧ (0xA5 : Nat) < 256 ∧
      (nrf24_read_register 0x1F (nrf24_write_register 0x1F 0xA5 (simWorld resetRegs))).1 = 0xA5 :=
  ⟨by decide, by decide,
    write_read_roundtrip 0x1F 0xA5 (simWorld resetRegs) (by decide) (by decide)⟩

/-! ## Bring-up -/

theorem check_connection_eq (w : World) :
    (nrf24_check_connection w).1 = (w.regs NRF24_REG_SETUP_AW == 0x03) ∧
      (nrf24_check_connection w).2.regs = w.regs ∧
      (nrf24_check_connection w).2.ce = w.ce := by
  simp [nrf24_check_connection, read_register_eq NRF24_REG_SETUP_AW (by decide)]

/-- C2: for a non-null handle `h` and any register file, `nrf24_init` returns
true exactly when SETUP_AW holds `0x03` (the register file is untouched between
the call and the probe), and the handle it leaves has `initialized` equal to
the returned value, whatever `h.initialized` was. -/
theorem init_true_iff_setup_aw (h : NRF24) (w : World) :
    ((nrf24_init (some h) w).1 = true ↔ w.regs NRF24_REG_SETUP_AW = 0x03) ∧
      (nrf24_init (some h) w).2.1.map NRF24.initialized = some (nrf24_init (some h) w).1 := by
  have hc := (check_connection_eq (nrf24_spi_acquire (furi_hal_spi_bus_handle_init
    (furi_hal_gpio_write Pin.ce false (furi_hal_gpio_init Pin.ce
      (furi_hal_gpio_write Pin.cs true (furi_hal_gpio_init_simple Pin.cs w))))))).1
  have hr : (nrf24_spi_acquire (furi_hal_spi_bus_handle_init
    (furi_hal_gpio_write Pin.ce false (furi_hal_gpio_init Pin.ce
      (furi_hal_gpio_write Pin.cs true (furi_hal_gpio_init_simple Pin.cs w)))))).regs = w.regs := by
    simp [nrf24_spi_acquire, furi_hal_spi_acquire, furi_hal_spi_bus_handle_init,
      furi_hal_gpio_write, furi_hal_gpio_init, furi_hal_gpio_init_simple, emit]
  rw [hr] at hc
  constructor
  · simp only [nrf24_init]
    split <;> simp_all
  · simp only [nrf24_init]
    split <;> simp_all

/-! ## Configuration setters -/

/-- C3: after `nrf24_set_channel ch` the RF_CH register holds `ch` when
`ch ≤ 125` and its previous value when `ch > 125`, in which case the call does
nothing at all (no bus transaction, no pin write); `set_channel(125)` writes
125 and `set_channel(126)` changes nothing. -/
theorem set_channel_boundary (ch : Nat) (w : World) :
    (nrf24_set_channel ch w).regs NRF24_REG_RF_CH
        = (if ch ≤ 125 then ch else w.regs NRF24_REG_RF_CH) ∧
      (125 < ch → nrf24_set_channel ch w = w) ∧
      (nrf24_set_channel 125 w).regs NRF24_REG_RF_CH = 125 ∧
      nrf24_set_channel 126 w = w := by
  refine ⟨?_, ?_, ?_, ?_⟩
  · by_cases hch : ch ≤ 125
    · have h1 : ¬ ch > 125 := by omega
      simp [nrf24_set_channel, h1, hch, write_register_eq NRF24_REG_RF_CH ch (by decide)]
    · have h1 : ch > 125 := by omega
      simp [nrf24_set_channel, h1, hch]
  · intro hch
    simp [nrf24_set_channel, hch]
  · simp [nrf24_set_channel, write_register_eq NRF24_REG_RF_CH 125 (by decide)]
  · simp [nrf24_set_channel]

set_option maxRecDepth 100000 in
theorem set_power_bits : ∀ r < 256, ∀ p < 4,
    ((r &&& cNot 0x06) % 256 ||| (p <<< 1)) % 256 = (r &&& (0xFF ^^^ 0x06)) ||| (p <<< 1) := by
  decide

set_option maxRecDepth 100000 in
theorem set_power_field : ∀ r < 256, ∀ p < 4,
    (((r &&& (0xFF ^^^ 0x06)) ||| (p <<< 1)) >>> 1) &&& 0x03 = p ∧
      ((r &&& (0xFF ^^^ 0x06)) ||| (p <<< 1)) &&& (0xFF ^^^ 0x06) = r &&& (0xFF ^^^ 0x06) := by
  decide

/-- C4: with `r` the byte held by RF_SETUP before the call, after
`nrf24_set_power level` RF_SETUP holds `(r AND NOT 0x06) OR (min level 3 << 1)`:
bits 1-2 are the level clamped to 3 and the other bits are those of `r`. -/
theorem set_power_clamps (level : Nat) (w : World) (hr : w.regs NRF24_REG_RF_SETUP < 256) :
    (nrf24_set_power level w).regs NRF24_REG_RF_SETUP
        = (w.regs NRF24_REG_RF_SETUP &&& (0xFF ^^^ 0x06)) ||| (min level 3 <<< 1) ∧
      (((nrf24_set_power level w).regs NRF24_REG_RF_SETUP) >>> 1) &&& 0x03 = min level 3 ∧
      ((nrf24_set_power level w).regs NRF24_REG_RF_SETUP) &&& (0xFF ^^^ 0x06)
        = w.regs NRF24_REG_RF_SETUP &&& (0xFF ^^^ 0x06) := by
  have hp : (if level > 3 then 3 else level) = min level 3 := by
    by_cases h : level > 3
    · simp [h]; omega
    · simp [h]; omega
  have hm : min level 3 < 4 := by omega
  have hreg : (nrf24_set_power level w).regs NRF24_REG_RF_SETUP
      = (w.regs NRF24_REG_RF_SETUP &&& (0xFF ^^^ 0x06)) ||| (min level 3 <<< 1) := by
    rw [← set_power_bits _ hr _ hm, ← hp]
    simp [nrf24_set_power, read_register_eq NRF24_REG_RF_SETUP (by decide),
      write_register_eq NRF24_REG_RF_SETUP _ (by decide)]
  rw [hreg]
  exact ⟨rfl, (set_power_field _ hr _ hm).1, (set_power_field _ hr _ hm).2⟩

theorem set_power_clamps_witness :
    (simWorld resetRegs).regs NRF24_REG_RF_SETUP < 256 ∧
      (nrf24_set_power 5 (simWorld resetRegs)).regs NRF24_REG_RF_SETUP
        = ((simWorld resetRegs).regs NRF24_REG_RF_SETUP &&& (0xFF ^^^ 0x06)) ||| (min 5 3 <<< 1) ∧
      (((nrf24_set_power 5 (simWorld resetRegs)).regs NRF24_REG_RF_SETUP) >>> 1) &&& 0x03
        = min 5 3 ∧
      ((nrf24_set_power 5 (simWorld resetRegs)).regs NRF24_REG_RF_SETUP) &&& (0xFF ^^^ 0x06)
        = (simWorld resetRegs).regs NRF24_REG_RF_SETUP &&& (0xFF ^^^ 0x06) :=
  ⟨by decide, set_power_clamps 5 (simWorld resetRegs) (by decide)⟩

/-! ## Payload transfer -/

/-- C5: for every buffer and every length above 32, `nrf24_write_payload` and
`nrf24_write_payload_noack` return the world they were given: the trace gains
no event (no bus transaction, no pin write, no delay) and the chip and pin
state are unchanged. -/
theorem write_payload_oversize_noop (data : List Nat) (length : Nat) (w : World)
    (hlen : 32 < length) :
    nrf24_write_payload data length w = w ∧
      nrf24_write_payload_noack data length w = w ∧
      (nrf24_write_payload data length w).trace = w.trace ∧
      (nrf24_write_payload_noack data length w).trace = w.trace := by
  have h1 : nrf24_write_payload data length w = w := by
    simp [nrf24_write_payload, hlen]
  have h2 : nrf24_write_payload_noack data length w = w := by
    simp [nrf24_write_payload_noack, hlen]
  exact ⟨h1, h2, by rw [h1], by rw [h2]⟩

theorem write_payload_oversize_noop_witness :
    32 < 33 ∧
      nrf24_write_payload (List.replicate 33 0xAB) 33 (simWorld resetRegs)
        = simWorld resetRegs ∧
      nrf24_write_payload_noack (List.replicate 33 0xAB) 33 (simWorld resetRegs)
        = simWorld resetRegs ∧
      (nrf24_write_payload (List.replicate 33 0xAB) 33 (simWorld resetRegs)).trace
        = (simWorld resetRegs).trace ∧
      (nrf24_write_payload_noack (List.replicate 33 0xAB) 33 (simWorld resetRegs)).trace
        = (simWorld resetRegs).trace :=
  ⟨by decide,
    write_payload_oversize_noop (List.replicate 33 0xAB) 33 (simWorld resetRegs) (by decide)⟩

theorem chipXfer_trace (bs : List Nat) (w : World) :
    (chipXfer w bs).1.trace = w.trace ∧ (chipXfer w bs).1.ce = w.ce ∧
      (chipXfer w bs).1.cs = w.cs := by
  induction bs generalizing w with
  | nil => simp [chipXfer]
  | cons b bs ih =>
    have hb : (chipByte w b).1.trace = w.trace ∧ (chipByte w b).1.ce = w.ce ∧
        (chipByte w b).1.cs = w.cs := by
      unfold chipByte
      split
      · simp
      · split
        · simp
        · split
          · simp
          · split <;> simp
    simp only [chipXfer]
    rw [(ih (chipByte w b).1).1, (ih (chipByte w b).1).2.1, (ih (chipByte w b).1).2.2]
    exact hb

/-- C6: for every buffer and every length up to 32 (0 and 32 included) the
events `nrf24_write_payload` adds to the trace are exactly: chip-select low,
transmit of the single byte `0xA0`, transmit of the first `length` bytes of
the buffer, chip-select high, chip-enable high, delay of 15 microseconds,
chip-enable low; chip-enable ends low. `nrf24_write_payload_noack` adds the
same events with `0xB0` as the command byte. -/
theorem write_payload_trace (data : List Nat) (length : Nat) (w : World)
    (hlen : length ≤ 32) :
    (nrf24_write_payload data length w).trace =
        w.trace ++ [Event.gpioWrite Pin.cs false, Event.spiTx [0xA0] 100,
          Event.spiTx (data.take length) 100, Event.gpioWrite Pin.cs true,
          Event.gpioWrite Pin.ce true, Event.delayUs 15, Event.gpioWrite Pin.ce false] ∧
      (nrf24_write_payload data length w).ce = false ∧
      (nrf24_write_payload_noack data length w).trace =
        w.trace ++ [Event.gpioWrite Pin.cs false, Event.spiTx [0xB0] 100,
          Event.spiTx (data.take length) 100, Event.gpioWrite Pin.cs true,
          Event.gpioWrite Pin.ce true, Event.delayUs 15, Event.gpioWrite Pin.ce false] ∧
      (nrf24_write_payload_noack data length w).ce = false := by
  have hl : ¬ length > 32 := by omega
  simp [nrf24_write_payload, nrf24_write_payload_noack, hl, furi_hal_gpio_write,
    furi_hal_spi_bus_tx, furi_delay_us, emit, chipXfer_trace, NRF24_CMD_W_TX_PAYLOAD,
    NRF24_CMD_W_TX_PAYLOAD_NOACK]

theorem write_payload_trace_witness :
    32 ≤ 32 ∧
      (nrf24_write_payload (List.replicate 40 0xAB) 32 (simWorld resetRegs)).trace =
        (simWorld resetRegs).trace ++ [Event.gpioWrite Pin.cs false, Event.spiTx [0xA0] 100,
          Event.spiTx ((List.replicate 40 0xAB).take 32) 100, Event.gpioWrite Pin.cs true,
          Event.gpioWrite Pin.ce true, Event.delayUs 15, Event.gpioWrite Pin.ce false] ∧
      (nrf24_write_payload (List.replicate 40 0xAB) 32 (simWorld resetRegs)).ce = false ∧
      (nrf24_write_payload_noack (List.replicate 40 0xAB) 32 (simWorld resetRegs)).trace =
        (simWorld resetRegs).trace ++ [Event.gpioWrite Pin.cs false, Event.spiTx [0xB0] 100,
          Event.spiTx ((List.replicate 40 0xAB).take 32) 100, Event.gpioWrite Pin.cs true,
          Event.gpioWrite Pin.ce true, Event.delayUs 15, Event.gpioWrite Pin.ce false] ∧
      (nrf24_write_payload_noack (List.replicate 40 0xAB) 32 (simWorld resetRegs)).ce = false :=
  ⟨by decide,
    write_payload_trace (List.replicate 40 0xAB) 32 (simWorld resetRegs) (by decide)⟩

/-! ## Power and mode control: the CONFIG byte -/

theorem and_mod_byte (a b : Nat) : (a &&& b) % 256 = (a % 256) &&& (b % 256) := by
  apply Nat.eq_of_testBit_eq
  intro i
  rw [show (256 : Nat) = 2 ^ 8 from rfl]
  simp only [Nat.testBit_mod_two_pow, Nat.testBit_and]
  cases decide (i < 8) <;> simp

theorem or_mod_byte (a b : Nat) : (a ||| b) % 256 = (a % 256) ||| (b % 256) := by
  apply Nat.eq_of_testBit_eq
  intro i
  rw [show (256 : Nat) = 2 ^ 8 from rfl]
  simp only [Nat.testBit_mod_two_pow, Nat.testBit_or]
  cases decide (i < 8) <;> simp

theorem idleConfig_mod (c : Nat) : idleConfig c = idleConfig (c % 256) := by
  unfold idleConfig
  rw [and_mod_byte c, and_mod_byte (c % 256), Nat.mod_mod]

theorem txConfig_mod (c : Nat) : txConfig c = txConfig (c % 256) := by
  unfold txConfig
  rw [and_mod_byte c, and_mod_byte (c % 256), Nat.mod_mod]

theorem rxConfig_mod (c : Nat) : rxConfig c = rxConfig (c % 256) := by
  unfold rxConfig
  rw [or_mod_byte c, or_mod_byte (c % 256), Nat.mod_mod]

set_option maxRecDepth 100000 in
theorem idleConfig_byte : ∀ c < 256,
    idleConfig c = c &&& (0xFF ^^^ 0x02) ∧ idleConfig c >>> 2 = c >>> 2 ∧
      (idleConfig c).testBit 1 = false ∧ (idleConfig c).testBit 0 = c.testBit 0 ∧
      idleConfig (idleConfig c) = idleConfig c := by
  decide

set_option maxRecDepth 100000 in
theorem txConfig_byte : ∀ c < 256,
    txConfig c = (c &&& (0xFF ^^^ 0x01)) ||| 0x02 ∧ txConfig c >>> 2 = c >>> 2 ∧
      (txConfig c).testBit 0 = false ∧ (txConfig c).testBit 1 = true := by
  decide

set_option maxRecDepth 100000 in
theorem rxConfig_byte : ∀ c < 256,
    rxConfig c = c ||| 0x03 ∧ rxConfig c >>> 2 = c >>> 2 ∧
      (rxConfig c).testBit 0 = true ∧ (rxConfig c).testBit 1 = true := by
  decide

theorem idleConfig_lt (c : Nat) : idleConfig c < 256 :=
  Nat.mod_lt _ (by decide)

theorem txConfig_lt (c : Nat) : txConfig c < 256 :=
  Nat.mod_lt _ (by decide)

theorem rxConfig_lt (c : Nat) : rxConfig c < 256 :=
  Nat.mod_lt _ (by decide)

theorem set_idle_eq (w : World) :
    (nrf24_set_idle w).regs
        = Function.update w.regs NRF24_REG_CONFIG (idleConfig (w.regs NRF24_REG_CONFIG)) ∧
      (nrf24_set_idle w).ce = false ∧ (nrf24_set_idle w).cs = true ∧
      (nrf24_set_idle w).cmd = none := by
  simp [nrf24_set_idle, idleConfig, read_register_eq NRF24_REG_CONFIG (by decide),
    write_register_eq NRF24_REG_CONFIG _ (by decide), furi_hal_gpio_write, emit]

theorem set_tx_mode_eq (w : World) :
    (nrf24_set_tx_mode w).regs
        = Function.update w.regs NRF24_REG_CONFIG (txConfig (w.regs NRF24_REG_CONFIG)) ∧
      (nrf24_set_tx_mode w).ce = w.ce ∧ (nrf24_set_tx_mode w).cs = true ∧
      (nrf24_set_tx_mode w).cmd = none := by
  simp [nrf24_set_tx_mode, txConfig, read_register_eq NRF24_REG_CONFIG (by decide),
    write_register_eq NRF24_REG_CONFIG _ (by decide), furi_delay_ms, emit]

theorem set_rx_mode_eq (w : World) :
    (nrf24_set_rx_mode w).regs
        = Function.update w.regs NRF24_REG_CONFIG (rxConfig (w.regs NRF24_REG_CONFIG)) ∧
      (nrf24_set_rx_mode w).ce = true ∧ (nrf24_set_rx_mode w).cs = true ∧
      (nrf24_set_rx_mode w).cmd = none := by
  simp [nrf24_set_rx_mode, rxConfig, read_register_eq NRF24_REG_CONFIG (by decide),
    write_register_eq NRF24_REG_CONFIG _ (by decide), furi_delay_ms, furi_hal_gpio_write, emit]

theorem init_ce_low (h : NRF24) (w : World) : (nrf24_init (some h) w).2.2.ce = false := by
  have hc : ∀ v : World, (nrf24_check_connection v).2.ce = v.ce :=
    fun v => (check_connection_eq v).2.2
  simp only [nrf24_init]
  split <;>
    simp [nrf24_spi_release, furi_hal_spi_release, emit, hc, nrf24_spi_acquire,
      furi_hal_spi_acquire, furi_hal_spi_bus_handle_init, furi_hal_gpio_write]

theorem set_idle_config (w : World) :
    (nrf24_set_idle w).regs NRF24_REG_CONFIG = idleConfig (w.regs NRF24_REG_CONFIG % 256) := by
  rw [(set_idle_eq w).1, ← idleConfig_mod]
  simp

theorem set_tx_mode_config (w : World) :
    (nrf24_set_tx_mode w).regs NRF24_REG_CONFIG = txConfig (w.regs NRF24_REG_CONFIG % 256) := by
  rw [(set_tx_mode_eq w).1, ← txConfig_mod]
  simp

theorem set_rx_mode_config (w : World) :
    (nrf24_set_rx_mode w).regs NRF24_REG_CONFIG = rxConfig (w.regs NRF24_REG_CONFIG % 256) := by
  rw [(set_rx_mode_eq w).1, ← rxConfig_mod]
  simp

theorem byte_mod_lt (c : Nat) : c % 256 < 256 :=
  Nat.mod_lt _ (by decide)

/-! ## Mode sequence -/

/-- C7: from the state left by a successful `nrf24_init`, whatever CONFIG
holds, running `nrf24_set_tx_mode`, `nrf24_set_rx_mode`, `nrf24_set_idle` in
this order gives, after each call: CONFIG bit 0 clear, then set, then left as
it was by `set_idle` (still set); CONFIG bit 1 set, set, clear; chip-enable
low, high, low. -/
theorem tx_rx_idle_sequence (h : NRF24) (w : World)
    (_hinit : (nrf24_init (some h) w).1 = true) :
    ((nrf24_set_tx_mode (nrf24_init (some h) w).2.2).regs NRF24_REG_CONFIG).testBit 0 = false ∧
      ((nrf24_set_tx_mode (nrf24_init (some h) w).2.2).regs NRF24_REG_CONFIG).testBit 1 = true ∧
      (nrf24_set_tx_mode (nrf24_init (some h) w).2.2).ce = false ∧
      ((nrf24_set_rx_mode (nrf24_set_tx_mode
        (nrf24_init (some h) w).2.2)).regs NRF24_REG_CONFIG).testBit 0 = true ∧
      ((nrf24_set_rx_mode (nrf24_set_tx_mode
        (nrf24_init (some h) w).2.2)).regs NRF24_REG_CONFIG).testBit 1 = true ∧
      (nrf24_set_rx_mode (nrf24_set_tx_mode (nrf24_init (some h) w).2.2)).ce = true ∧
      ((nrf24_set_idle (nrf24_set_rx_mode (nrf24_set_tx_mode
        (nrf24_init (some h) w).2.2))).regs NRF24_REG_CONFIG).testBit 0
          = ((nrf24_set_rx_mode (nrf24_set_tx_mode
              (nrf24_init (some h) w).2.2)).regs NRF24_REG_CONFIG).testBit 0 ∧
      ((nrf24_set_idle (nrf24_set_rx_mode (nrf24_set_tx_mode
        (nrf24_init (some h) w).2.2))).regs NRF24_REG_CONFIG).testBit 0 = true ∧
      ((nrf24_set_idle (nrf24_set_rx_mode (nrf24_set_tx_mode
        (nrf24_init (some h) w).2.2))).regs NRF24_REG_CONFIG).testBit 1 = false ∧
      (nrf24_set_idle (nrf24_set_rx_mode (nrf24_set_tx_mode
        (nrf24_init (some h) w).2.2))).ce = false := by
  generalize hw0 : (nrf24_init (some h) w).2.2 = w0
  have hce0 : w0.ce = false := by rw [← hw0]; exact init_ce_low h w
  have htx := txConfig_byte _ (byte_mod_lt (w0.regs NRF24_REG_CONFIG))
  have hrx := rxConfig_byte _ (byte_mod_lt ((nrf24_set_tx_mode w0).regs NRF24_REG_CONFIG))
  have hid := idleConfig_byte _
    (byte_mod_lt ((nrf24_set_rx_mode (nrf24_set_tx_mode w0)).regs NRF24_REG_CONFIG))
  have hrxlt : (nrf24_set_rx_mode (nrf24_set_tx_mode w0)).regs NRF24_REG_CONFIG % 256
      = (nrf24_set_rx_mode (nrf24_set_tx_mode w0)).regs NRF24_REG_CONFIG := by
    rw [set_rx_mode_config]
    exact Nat.mod_eq_of_lt (rxConfig_lt _)
  rw [hrxlt] at hid
  have hb0 : ((nrf24_set_rx_mode (nrf24_set_tx_mode w0)).regs NRF24_REG_CONFIG).testBit 0
      = true := by
    rw [set_rx_mode_config]; exact hrx.2.2.1
  refine ⟨?_, ?_, ?_, hb0, ?_, ?_, ?_, ?_, ?_, ?_⟩
  · rw [set_tx_mode_config]; exact htx.2.2.1
  · rw [set_tx_mode_config]; exact htx.2.2.2
  · rw [(set_tx_mode_eq w0).2.1]; exact hce0
  · rw [set_rx_mode_config]; exact hrx.2.2.2
  · exact (set_rx_mode_eq _).2.1
  · rw [set_idle_config, hrxlt]; exact hid.2.2.2.1
  · rw [set_idle_config, hrxlt, hid.2.2.2.1]; exact hb0
  · rw [set_idle_config, hrxlt]; exact hid.2.2.1
  · exact (set_idle_eq _).2.1

theorem tx_rx_idle_sequence_witness :
    (nrf24_init (some freshHandle) (simWorld resetRegs)).1 = true ∧
      (((nrf24_set_tx_mode (nrf24_init (some freshHandle) (simWorld resetRegs)).2.2).regs NRF24_REG_CONFIG).testBit 0 = false ∧
      ((nrf24_set_tx_mode (nrf24_init (some freshHandle) (simWorld resetRegs)).2.2).regs NRF24_REG_CONFIG).testBit 1 = true ∧
      (nrf24_set_tx_mode (nrf24_init (some freshHandle) (simWorld resetRegs)).2.2).ce = false ∧
      ((nrf24_set_rx_mode (nrf24_set_tx_mode
        (nrf24_init (some freshHandle) (simWorld resetRegs)).2.2)).regs NRF24_REG_CONFIG).testBit 0 = true ∧
      ((nrf24_set_rx_mode (nrf24_set_tx_mode
        (nrf24_init (some freshHandle) (simWorld resetRegs)).2.2)).regs NRF24_REG_CONFIG).testBit 1 = true ∧
      (nrf24_set_rx_mode (nrf24_set_tx_mode (nrf24_init (some freshHandle) (simWorld resetRegs)).2.2)).ce = true ∧
      ((nrf24_set_idle (nrf24_set_rx_mode (nrf24_set_tx_mode
        (nrf24_init (some freshHandle) (simWorld resetRegs)).2.2))).regs NRF24_REG_CONFIG).testBit 0
          = ((nrf24_set_rx_mode (nrf24_set_tx_mode
              (nrf24_init (some freshHandle) (simWorld resetRegs)).2.2)).regs NRF24_REG_CONFIG).testBit 0 ∧
      ((nrf24_set_idle (nrf24_set_rx_mode (nrf24_set_tx_mode
        (nrf24_init (some freshHandle) (simWorld resetRegs)).2.2))).regs NRF24_REG_CONFIG).testBit 0 = true ∧
      ((nrf24_set_idle (nrf24_set_rx_mode (nrf24_set_tx_mode
        (nrf24_init (some freshHandle) (simWorld resetRegs)).2.2))).regs NRF24_REG_CONFIG).testBit 1 = false ∧
      (nrf24_set_idle (nrf24_set_rx_mode (nrf24_set_tx_mode
        (nrf24_init (some freshHandle) (simWorld resetRegs)).2.2))).ce = false) :=
  ⟨by decide, tx_rx_idle_sequence freshHandle (simWorld resetRegs) (by decide)⟩

/-- C8, as the code has it: `nrf24_set_tx_mode` never drives chip-enable. The
host calls it makes are exactly the read of CONFIG (chip-select low, transceive
of `[0x00, 0]`, chip-select high), the write of CONFIG (chip-select low,
transmit of `[0x20, new CONFIG]`, chip-select high) and the 2 ms delay: none of
them is a write of the chip-enable pin. So after it returns chip-enable holds
the level it had before the call: low when the call follows `nrf24_init` on a
non-null handle or `nrf24_set_idle`, or an earlier `nrf24_set_tx_mode` made
from there, and still high when the call follows `nrf24_set_rx_mode`, whose
continuous listening is therefore not ended. -/
theorem set_tx_mode_keeps_ce (h : NRF24) (w : World) :
    (nrf24_set_tx_mode w).trace =
        w.trace ++ [Event.gpioWrite Pin.cs false, Event.spiTrx [0x00, 0] 100,
          Event.gpioWrite Pin.cs true, Event.gpioWrite Pin.cs false,
          Event.spiTx [0x20, txConfig (w.regs NRF24_REG_CONFIG)] 100,
          Event.gpioWrite Pin.cs true, Event.delayMs 2] ∧
      (∃ delta, (nrf24_set_tx_mode w).trace = w.trace ++ delta ∧
        ∀ level, Event.gpioWrite Pin.ce level ∉ delta) ∧
      (nrf24_set_tx_mode w).ce = w.ce ∧
      (nrf24_set_tx_mode (nrf24_init (some h) w).2.2).ce = false ∧
      (nrf24_set_tx_mode (nrf24_set_idle w)).ce = false ∧
      (nrf24_set_tx_mode (nrf24_set_tx_mode (nrf24_set_idle w))).ce = false ∧
      (nrf24_set_rx_mode w).ce = true ∧
      (nrf24_set_tx_mode (nrf24_set_rx_mode w)).ce = true := by
  have htr : (nrf24_set_tx_mode w).trace =
      w.trace ++ [Event.gpioWrite Pin.cs false, Event.spiTrx [0x00, 0] 100,
        Event.gpioWrite Pin.cs true, Event.gpioWrite Pin.cs false,
        Event.spiTx [0x20, txConfig (w.regs NRF24_REG_CONFIG)] 100,
        Event.gpioWrite Pin.cs true, Event.delayMs 2] := by
    simp [nrf24_set_tx_mode, txConfig, read_register_eq 0 (by decide),
      write_register_eq 0 _ (by decide), furi_delay_ms, emit,
      NRF24_REG_CONFIG, NRF24_CMD_READ_REG, NRF24_CMD_WRITE_REG]
  refine ⟨htr, ⟨_, htr, ?_⟩, (set_tx_mode_eq w).2.1, ?_, ?_, ?_, (set_rx_mode_eq w).2.1, ?_⟩
  · intro level
    simp
  · rw [(set_tx_mode_eq _).2.1]; exact init_ce_low h w
  · rw [(set_tx_mode_eq _).2.1]; exact (set_idle_eq w).2.1
  · rw [(set_tx_mode_eq _).2.1, (set_tx_mode_eq _).2.1]; exact (set_idle_eq w).2.1
  · rw [(set_tx_mode_eq _).2.1]; exact (set_rx_mode_eq w).2.1

/-- C8 fails as stated: after a successful `nrf24_init` and `nrf24_set_rx_mode`,
chip-enable is still high when `nrf24_set_tx_mode` returns. -/
theorem set_tx_mode_after_rx_ce_high :
    (nrf24_init (some freshHandle) (simWorld resetRegs)).1 = true ∧
      (nrf24_set_rx_mode (nrf24_init (some freshHandle) (simWorld resetRegs)).2.2).ce = true ∧
      (nrf24_set_tx_mode (nrf24_set_rx_mode
        (nrf24_init (some freshHandle) (simWorld resetRegs)).2.2)).ce = true := by
  decide

/-! ## Tear-down -/

/-- C9: for every non-null handle, initialized or not, and every register
file, after `nrf24_deinit` the handle has `initialized = false`, CONFIG bit 1
is clear and chip-enable is low; a second `nrf24_deinit` leaves the same
handle, register file, latched-command state and pin levels as the first. -/
theorem deinit_idempotent (h : NRF24) (w : World) :
    (nrf24_deinit (some h) w).1.map NRF24.initialized = some false ∧
      ((nrf24_deinit (some h) w).2.regs NRF24_REG_CONFIG).testBit 1 = false ∧
      (nrf24_deinit (some h) w).2.ce = false ∧
      (nrf24_deinit (nrf24_deinit (some h) w).1 (nrf24_deinit (some h) w).2).1
        = (nrf24_deinit (some h) w).1 ∧
      (nrf24_deinit (nrf24_deinit (some h) w).1 (nrf24_deinit (some h) w).2).2.regs
        = (nrf24_deinit (some h) w).2.regs ∧
      (nrf24_deinit (nrf24_deinit (some h) w).1 (nrf24_deinit (some h) w).2).2.cmd
        = (nrf24_deinit (some h) w).2.cmd ∧
      (nrf24_deinit (nrf24_deinit (some h) w).1 (nrf24_deinit (some h) w).2).2.cs
        = (nrf24_deinit (some h) w).2.cs ∧
      (nrf24_deinit (nrf24_deinit (some h) w).1 (nrf24_deinit (some h) w).2).2.ce
        = (nrf24_deinit (some h) w).2.ce := by
  have hd : ∀ (g : NRF24) (v : World),
      (nrf24_deinit (some g) v).1 = some { g with initialized := false } ∧
      (nrf24_deinit (some g) v).2.regs
        = Function.update v.regs NRF24_REG_CONFIG (idleConfig (v.regs NRF24_REG_CONFIG % 256)) ∧
      (nrf24_deinit (some g) v).2.cmd = none ∧
      (nrf24_deinit (some g) v).2.cs = true ∧
      (nrf24_deinit (some g) v).2.ce = false := by
    intro g v
    have hi := set_idle_eq (nrf24_spi_acquire v)
    have ha : (nrf24_spi_acquire v).regs = v.regs := rfl
    rw [ha] at hi
    rw [← idleConfig_mod]
    simp [nrf24_deinit, furi_hal_spi_bus_handle_deinit, nrf24_spi_release,
      furi_hal_spi_release, emit, hi]
  obtain ⟨h1, h2, h3, h4, h5⟩ := hd h w
  have hb := idleConfig_byte _ (byte_mod_lt (w.regs NRF24_REG_CONFIG))
  rw [h1]
  obtain ⟨k1, k2, k3, k4, k5⟩ := hd { h with initialized := false } (nrf24_deinit (some h) w).2
  refine ⟨rfl, ?_, h5, k1, ?_, ?_, ?_, ?_⟩
  · rw [h2]; simp only [Function.update_same]; exact hb.2.2.1
  · rw [k2, h2]
    simp only [Function.update_same, Function.update_idem]
    rw [Nat.mod_eq_of_lt (idleConfig_lt _), hb.2.2.2.2]
  · rw [k3, h3]
  · rw [k4, h4]
  · rw [k5, h5]

/-! ## Read-modify-write of CONFIG -/

theorem testBit_of_shiftRight_two_eq (x y : Nat) (hxy : x >>> 2 = y >>> 2) (i : Nat)
    (hi : 2 ≤ i) : x.testBit i = y.testBit i := by
  obtain ⟨j, rfl⟩ : ∃ j, i = 2 + j := ⟨i - 2, by omega⟩
  rw [← Nat.testBit_shiftRight, ← Nat.testBit_shiftRight, hxy]

/-- C10: with `c` the byte held by CONFIG before the call, `nrf24_set_idle`
writes `c AND NOT 0x02`, `nrf24_set_tx_mode` writes `(c AND NOT 0x01) OR 0x02`
and `nrf24_set_rx_mode` writes `c OR 0x03`; each of the three leaves bits 2 and
above of CONFIG as they were, and leaves every register other than CONFIG
unchanged. -/
theorem config_rmw_preserves (w : World) (hc : w.regs NRF24_REG_CONFIG < 256) :
    (nrf24_set_idle w).regs NRF24_REG_CONFIG = w.regs NRF24_REG_CONFIG &&& (0xFF ^^^ 0x02) ∧
      (nrf24_set_tx_mode w).regs NRF24_REG_CONFIG
        = (w.regs NRF24_REG_CONFIG &&& (0xFF ^^^ 0x01)) ||| 0x02 ∧
      (nrf24_set_rx_mode w).regs NRF24_REG_CONFIG = w.regs NRF24_REG_CONFIG ||| 0x03 ∧
      (∀ i, 2 ≤ i →
        ((nrf24_set_idle w).regs NRF24_REG_CONFIG).testBit i
            = (w.regs NRF24_REG_CONFIG).testBit i ∧
          ((nrf24_set_tx_mode w).regs NRF24_REG_CONFIG).testBit i
            = (w.regs NRF24_REG_CONFIG).testBit i ∧
          ((nrf24_set_rx_mode w).regs NRF24_REG_CONFIG).testBit i
            = (w.regs NRF24_REG_CONFIG).testBit i) ∧
      (∀ a, a ≠ NRF24_REG_CONFIG →
        (nrf24_set_idle w).regs a = w.regs a ∧
          (nrf24_set_tx_mode w).regs a = w.regs a ∧
          (nrf24_set_rx_mode w).regs a = w.regs a) := by
  have hm : w.regs NRF24_REG_CONFIG % 256 = w.regs NRF24_REG_CONFIG := Nat.mod_eq_of_lt hc
  have hid := idleConfig_byte _ hc
  have htx := txConfig_byte _ hc
  have hrx := rxConfig_byte _ hc
  have e1 : (nrf24_set_idle w).regs NRF24_REG_CONFIG = idleConfig (w.regs NRF24_REG_CONFIG) := by
    rw [set_idle_config, hm]
  have e2 : (nrf24_set_tx_mode w).regs NRF24_REG_CONFIG
      = txConfig (w.regs NRF24_REG_CONFIG) := by
    rw [set_tx_mode_config, hm]
  have e3 : (nrf24_set_rx_mode w).regs NRF24_REG_CONFIG
      = rxConfig (w.regs NRF24_REG_CONFIG) := by
    rw [set_rx_mode_config, hm]
  refine ⟨e1.trans hid.1, e2.trans htx.1, e3.trans hrx.1, ?_, ?_⟩
  · intro i hi
    rw [e1, e2, e3]
    exact ⟨testBit_of_shiftRight_two_eq _ _ hid.2.1 i hi,
      testBit_of_shiftRight_two_eq _ _ htx.2.1 i hi,
      testBit_of_shiftRight_two_eq _ _ hrx.2.1 i hi⟩
  · intro a ha
    rw [(set_idle_eq w).1, (set_tx_mode_eq w).1, (set_rx_mode_eq w).1]
    simp [Function.update_noteq ha]

theorem config_rmw_preserves_witness :
    (simWorld resetRegs).regs NRF24_REG_CONFIG < 256 ∧
      ((nrf24_set_idle (simWorld resetRegs)).regs NRF24_REG_CONFIG = (simWorld resetRegs).regs NRF24_REG_CONFIG &&& (0xFF ^^^ 0x02) ∧
      (nrf24_set_tx_mode (simWorld resetRegs)).regs NRF24_REG_CONFIG
        = ((simWorld resetRegs).regs NRF24_REG_CONFIG &&& (0xFF ^^^ 0x01)) ||| 0x02 ∧
      (nrf24_set_rx_mode (simWorld resetRegs)).regs NRF24_REG_CONFIG = (simWorld resetRegs).regs NRF24_REG_CONFIG ||| 0x03 ∧
      (∀ i, 2 ≤ i →
        ((nrf24_set_idle (simWorld resetRegs)).regs NRF24_REG_CONFIG).testBit i
            = ((simWorld resetRegs).regs NRF24_REG_CONFIG).testBit i ∧
          ((nrf24_set_tx_mode (simWorld resetRegs)).regs NRF24_REG_CONFIG).testBit i
            = ((simWorld resetRegs).regs NRF24_REG_CONFIG).testBit i ∧
          ((nrf24_set_rx_mode (simWorld resetRegs)).regs NRF24_REG_CONFIG).testBit i
            = ((simWorld resetRegs).regs NRF24_REG_CONFIG).testBit i) ∧
      (∀ a, a ≠ NRF24_REG_CONFIG →
        (nrf24_set_idle (simWorld resetRegs)).regs a = (simWorld resetRegs).regs a ∧
          (nrf24_set_tx_mode (simWorld resetRegs)).regs a = (simWorld resetRegs).regs a ∧
          (nrf24_set_rx_mode (simWorld resetRegs)).regs a = (simWorld resetRegs).regs a)) :=
  ⟨by decide, config_rmw_preserves (simWorld resetRegs) (by decide)⟩

end Nrf24Lib
